import Mathlib

/-!
Verification of the autonomous payment remediation agent (module3):
a shallow embedding of the safety guardrails, action executor, rollback
manager, outcome tracker and learning system, with theorems checking the
natural-language specification against the code.

Numeric values that are Python floats are modelled as rationals (ℚ);
timestamps (`datetime.utcnow()`) are modelled as an explicit integer clock
passed to every state-changing operation; Python dicts with string keys are
modelled as association lists, and `dict.get(key, default)` as
`Option.getD`.
-/

namespace PaymentAgent

/-- The `parameters` dict of a `Decision` (`models/decision.py`). Each field
is a key the components read with `parameters.get`; a key absent from the
dict is `none`. -/
structure Params where
  reduction_pct : Option ℚ := none
  current_max_retries : Option ℚ := none
  new_max_retries : Option ℚ := none
  new_retry_delay_ms : Option ℚ := none
  from_gateway : Option String := none
  to_gateway : Option String := none
  shift_pct : Option ℚ := none
  message : Option String := none
deriving Repr, DecidableEq

/-- `Decision` (`models/decision.py`). `action_type` and
`estimated_risk_level` are strings at runtime (pydantic `Literal` values);
the executor dispatches on the raw string and has a defensive branch for
unknown values, so they are modelled as `String`. `created_at` is omitted
(wall-clock metadata never read by the components). -/
structure Decision where
  action_id : String
  action_type : String
  target_dimension : String
  target_value : String
  parameters : Params := {}
  duration_minutes : ℤ := 60
  expected_improvement_pct : ℚ
  estimated_risk_level : String
  reasoning : String := ""
  confidence : ℚ
deriving Repr, DecidableEq

/-! ### SafetyGuardrails (`components/safety_guardrails.py`) -/

/-- Hard limit: never reduce traffic by more than 50%. -/
def MAX_TRAFFIC_REDUCTION_PCT : ℚ := 50

/-- Hard limit: never increase retries beyond 3x. -/
def MAX_RETRY_INCREASE : ℚ := 3

/-- Hard limit: never act with less than 60% confidence. -/
def MIN_CONFIDENCE_THRESHOLD : ℚ := 0.6

/-- Hard limit: never more than 3 active actions. -/
def MAX_CONCURRENT_ACTIONS : ℕ := 3

/-- Risk threshold flag: high-risk actions require a human. -/
def HIGH_RISK_REQUIRES_HUMAN : Bool := true

/-- One entry appended to a violation message in
`safety_guardrails.py`. Each constructor corresponds to one
`violations.append(...)` site and carries the dynamic data interpolated
into that site's message string. -/
inductive Violation where
  | confidenceBelowMin (confidence : ℚ)
  | tooManyActive (count : ℕ)
  | trafficReductionExceedsMax (reduction_pct : ℚ)
  | retryIncreaseExceedsMax (increase : ℚ)
  | circuitBreakNotHighRisk
  | durationOutOfRange (duration_minutes : ℤ)
  | highRiskRequiresHuman
  | criticalIssuer (target_value : String)
  | criticalMethod (target_value : String)
deriving Repr, DecidableEq

/-- An entry of `SafetyGuardrails.active_actions`
(`register_active_action`). -/
structure ActiveAction where
  action_id : String
  action_type : String
  started_at : ℤ
  expires_at : ℤ
deriving Repr, DecidableEq

/-- The mutable state of `SafetyGuardrails`: the list of active actions. -/
structure SafetyGuardrails where
  active_actions : List ActiveAction := []
deriving Repr, DecidableEq

/-- `SafetyGuardrails._validate_action_parameters`. -/
def validate_action_parameters (action : Decision) : List Violation :=
  let typeViolations :=
    if action.action_type = "rate_limit" then
      let reduction_pct := action.parameters.reduction_pct.getD 0
      if reduction_pct > MAX_TRAFFIC_REDUCTION_PCT then
        [Violation.trafficReductionExceedsMax reduction_pct]
      else []
    else if action.action_type = "modify_retry_config" then
      let current_retries := action.parameters.current_max_retries.getD 1
      let new_retries := action.parameters.new_max_retries.getD 1
      if current_retries > 0 then
        let increase := new_retries / current_retries
        if increase > MAX_RETRY_INCREASE then
          [Violation.retryIncreaseExceedsMax increase]
        else []
      else []
    else if action.action_type = "circuit_break" then
      if action.estimated_risk_level ≠ "high" then
        [Violation.circuitBreakNotHighRisk]
      else []
    else []
  let durationViolations :=
    if action.duration_minutes < 5 ∨ action.duration_minutes > 180 then
      [Violation.durationOutOfRange action.duration_minutes]
    else []
  typeViolations ++ durationViolations

/-- High-volume issuers that must not be circuit-broken. -/
def critical_issuers : List String := ["CHASE", "HDFC", "ICICI"]

/-- Primary payment methods that must not be circuit-broken. -/
def critical_methods : List String := ["card"]

/-- `SafetyGuardrails._check_critical_infrastructure`. -/
def check_critical_infrastructure (action : Decision) : List Violation :=
  let issuerViolations :=
    if action.target_dimension = "issuer_bank" ∧
        action.target_value ∈ critical_issuers ∧
        action.action_type = "circuit_break" then
      [Violation.criticalIssuer action.target_value]
    else []
  let methodViolations :=
    if action.target_dimension = "payment_method" ∧
        action.target_value ∈ critical_methods ∧
        action.action_type = "circuit_break" then
      [Violation.criticalMethod action.target_value]
    else []
  issuerViolations ++ methodViolations

/-- `SafetyGuardrails.validate_action`: the five checks run in order, each
appending its violations; the returned flag is `len(violations) == 0`. -/
def validate_action (g : SafetyGuardrails) (action : Decision) :
    Bool × List Violation :=
  let confViolations :=
    if action.confidence < MIN_CONFIDENCE_THRESHOLD then
      [Violation.confidenceBelowMin action.confidence]
    else []
  let concViolations :=
    if g.active_actions.length ≥ MAX_CONCURRENT_ACTIONS then
      [Violation.tooManyActive g.active_actions.length]
    else []
  let paramViolations := validate_action_parameters action
  let riskViolations :=
    if action.estimated_risk_level = "high" ∧ HIGH_RISK_REQUIRES_HUMAN = true then
      [Violation.highRiskRequiresHuman]
    else []
  let critViolations := check_critical_infrastructure action
  let violations :=
    confViolations ++ concViolations ++ paramViolations ++ riskViolations ++
      critViolations
  (violations.isEmpty, violations)

/-- `SafetyGuardrails.register_active_action`: unconditionally appends an
entry; `now` models `datetime.utcnow()`. -/
def register_active_action (g : SafetyGuardrails) (action : Decision)
    (now : ℤ) : SafetyGuardrails :=
  { active_actions := g.active_actions ++
      [{ action_id := action.action_id
         action_type := action.action_type
         started_at := now
         expires_at := now + action.duration_minutes }] }

/-- `SafetyGuardrails.deregister_active_action`. -/
def deregister_active_action (g : SafetyGuardrails) (action_id : String) :
    SafetyGuardrails :=
  { active_actions := g.active_actions.filter (fun a => a.action_id ≠ action_id) }

/-- `SafetyGuardrails.cleanup_expired_actions`. -/
def cleanup_expired_actions (g : SafetyGuardrails) (now : ℤ) :
    SafetyGuardrails :=
  { active_actions := g.active_actions.filter (fun a => a.expires_at > now) }

/-! ### ActionExecutor (`components/action_executor.py`) -/

/-- The `current_state` dict passed to `execute_action`; each field is read
with `current_state.get(key, {})`. The nested config dicts are opaque to the
executor, modelled as string-keyed association lists. -/
structure CurrentState where
  routing_config : Option (List (String × String)) := none
  retry_config : Option (List (String × String)) := none
  rate_limits : Option (List (String × String)) := none
  circuit_breakers : Option (List (String × String)) := none
deriving Repr, DecidableEq

/-- The dict built by `ActionExecutor._capture_state_snapshot`. -/
structure Snapshot where
  timestamp : ℤ
  routing_config : List (String × String)
  retry_config : List (String × String)
  rate_limits : List (String × String)
  circuit_breakers : List (String × String)
deriving Repr, DecidableEq

/-- `ActionExecutor._capture_state_snapshot`: copies the four config
sections, defaulting each missing one to an empty dict; `now` models the
`datetime.utcnow().isoformat()` timestamp. -/
def capture_state_snapshot (now : ℤ) (current_state : CurrentState) :
    Snapshot :=
  { timestamp := now
    routing_config := current_state.routing_config.getD []
    retry_config := current_state.retry_config.getD []
    rate_limits := current_state.rate_limits.getD []
    circuit_breakers := current_state.circuit_breakers.getD [] }

/-- The dict returned by a type-specific `_execute_*` handler. One
constructor per `return` site, carrying the fields of the returned dict
(the `simulated` flag is determined by the constructor). -/
inductive HandlerResult where
  | routingSimulated (source_gateway target_gateway : Option String)
      (shift_pct : ℚ)
  | routingLive
  | retrySimulated (new_max_retries new_retry_delay_ms : Option ℚ)
  | retryLive
  | rateSimulated (reduction_pct : ℚ)
  | rateLive
  | circuitSimulated
  | circuitLive
  | alertSimulated (message : String)
  | alertLive
  | doNothing
deriving Repr, DecidableEq

/-- The `try`-block dispatch of `ActionExecutor.execute_action`: selects the
type-specific handler, or raises `ValueError` for an unknown action type
(modelled as `Except.error` carrying `str(e)`). The handlers themselves
(`_execute_routing_adjustment`, …) never raise; their `if simulation_mode`
branches are folded into the two constructors each. -/
def execute_handler (simulation_mode : Bool) (action : Decision) :
    Except String HandlerResult :=
  if action.action_type = "adjust_routing" then
    .ok (if simulation_mode then
      .routingSimulated action.parameters.from_gateway
        action.parameters.to_gateway (action.parameters.shift_pct.getD 0)
    else .routingLive)
  else if action.action_type = "modify_retry_config" then
    .ok (if simulation_mode then
      .retrySimulated action.parameters.new_max_retries
        action.parameters.new_retry_delay_ms
    else .retryLive)
  else if action.action_type = "rate_limit" then
    .ok (if simulation_mode then
      .rateSimulated (action.parameters.reduction_pct.getD 0)
    else .rateLive)
  else if action.action_type = "circuit_break" then
    .ok (if simulation_mode then .circuitSimulated else .circuitLive)
  else if action.action_type = "alert_merchant" then
    .ok (if simulation_mode then
      .alertSimulated (action.parameters.message.getD "")
    else .alertLive)
  else if action.action_type = "do_nothing" then
    .ok .doNothing
  else
    .error ("Unknown action type: " ++ action.action_type)

/-- A value of `ActionExecutor.active_actions[action_id]`. The two rollback
keys are only set by `rollback_action`, hence `Option`. -/
structure ActionState where
  action : Decision
  baseline_snapshot : Snapshot
  execution_result : HandlerResult
  started_at : ℤ
  expires_at : ℤ
  status : String
  rollback_reason : Option String := none
  rolled_back_at : Option ℤ := none
deriving Repr, DecidableEq

/-- The mutable state of `ActionExecutor`; the `active_actions` dict is an
association list keyed by action id (insertion order preserved, as in a
Python dict). -/
structure ActionExecutorState where
  simulation_mode : Bool := true
  active_actions : List (String × ActionState) := []
deriving Repr, DecidableEq

/-- In-place update of one dict entry (`self.active_actions[id] = ...` for a
key already present keeps its position). -/
def updateAction (entries : List (String × ActionState)) (action_id : String)
    (st : ActionState) : List (String × ActionState) :=
  entries.map (fun e => if e.1 = action_id then (e.1, st) else e)

/-- `ActionExecutor._register_active_action`. -/
def executor_register_active_action (ex : ActionExecutorState)
    (action : Decision) (baseline_snapshot : Snapshot)
    (execution_result : HandlerResult) (now : ℤ) : ActionExecutorState :=
  { ex with active_actions := ex.active_actions ++
      [(action.action_id,
        { action := action
          baseline_snapshot := baseline_snapshot
          execution_result := execution_result
          started_at := now
          expires_at := now + action.duration_minutes
          status := "active" })] }

/-- The dict returned by `ActionExecutor.execute_action`. The success return
carries `execution_details` and `expires_at`; the `except` return carries
`error`; both carry the baseline snapshot. -/
structure ExecResult where
  action_id : String
  status : String
  execution_details : Option HandlerResult := none
  error : Option String := none
  baseline_snapshot : Snapshot
  expires_at : Option ℤ := none
deriving Repr, DecidableEq

/-- The body of `ActionExecutor.execute_action` after the handler dispatch
has produced `handler_outcome` (`.ok` = the dispatched handler's result,
`.error` = the exception caught by the `except` clause). On success the
action is registered as active; on failure the state is unchanged and a
`status="failed"` result with the error and the previously captured
baseline is returned. The `asyncio` auto-expiration task is scheduling, not
modelled here. -/
def execute_with_handler_outcome (ex : ActionExecutorState)
    (action : Decision) (current_state : CurrentState) (now : ℤ)
    (handler_outcome : Except String HandlerResult) :
    ExecResult × ActionExecutorState :=
  let baseline_snapshot := capture_state_snapshot now current_state
  match handler_outcome with
  | .ok result =>
      let ex' := executor_register_active_action ex action baseline_snapshot
        result now
      ({ action_id := action.action_id
         status := "success"
         execution_details := some result
         baseline_snapshot := baseline_snapshot
         expires_at := some (now + action.duration_minutes) }, ex')
  | .error e =>
      ({ action_id := action.action_id
         status := "failed"
         error := some e
         baseline_snapshot := baseline_snapshot }, ex)

/-- `ActionExecutor.execute_action`. -/
def execute_action (ex : ActionExecutorState) (action : Decision)
    (current_state : CurrentState) (now : ℤ) :
    ExecResult × ActionExecutorState :=
  execute_with_handler_outcome ex action current_state now
    (execute_handler ex.simulation_mode action)

/-- The `{"simulated": ..., "state_restored": True}` dict built inside
`rollback_action`. -/
structure RollbackDetails where
  simulated : Bool
  state_restored : Bool
deriving Repr, DecidableEq

/-- The dict returned by `ActionExecutor.rollback_action`: the not-found
branch returns `status="error"` with a message; the rollback branch returns
`status="success"` with details and the restored baseline. -/
structure RollbackResult where
  status : String
  message : Option String := none
  action_id : Option String := none
  rollback_details : Option RollbackDetails := none
  baseline_restored : Option Snapshot := none
deriving Repr, DecidableEq

/-- `ActionExecutor.rollback_action`. Note: the entry is looked up by key
membership only — its `status` is not consulted and the entry is never
removed, so a rollback leaves the id registered (with `status` set to
`"rolled_back"` and the two rollback keys overwritten). -/
def rollback_action (ex : ActionExecutorState) (action_id : String)
    (reason : String) (now : ℤ) : RollbackResult × ActionExecutorState :=
  match ex.active_actions.lookup action_id with
  | none => ({ status := "error", message := some "Action not found" }, ex)
  | some action_state =>
      let result : RollbackDetails :=
        { simulated := ex.simulation_mode, state_restored := true }
      let rolledBack : ActionState :=
        { action_state with
            status := "rolled_back"
            rollback_reason := some reason
            rolled_back_at := some now }
      let ex' := { ex with
        active_actions := updateAction ex.active_actions action_id rolledBack }
      ({ status := "success"
         action_id := some action_id
         rollback_details := some result
         baseline_restored := some action_state.baseline_snapshot }, ex')

/-! ### RollbackManager (`components/rollback_manager.py`) -/

/-- Rollback trigger: if improvement `< -5%`, rollback. -/
def DEGRADATION_THRESHOLD_PCT : ℚ := -5

/-- Rollback trigger: must improve by at least `2%`. -/
def MIN_IMPROVEMENT_THRESHOLD_PCT : ℚ := 2

/-- A metrics dict (`baseline_metrics` / `current_metrics`); each field is
read with `metrics.get(key, 0)`, a missing key is `none`. -/
structure Metrics where
  success_rate : Option ℚ := none
  error_rate : Option ℚ := none
  p95_latency_ms : Option ℚ := none
  timeout_rate : Option ℚ := none
deriving Repr, DecidableEq

/-- `RollbackManager._detect_new_anomalies`: error rate above 0.15, p95
latency above 5000 ms, or timeout rate above 0.10. -/
def detect_new_anomalies (current_metrics : Metrics) : Bool :=
  if current_metrics.error_rate.getD 0 > 0.15 then true
  else if current_metrics.p95_latency_ms.getD 0 > 5000 then true
  else if current_metrics.timeout_rate.getD 0 > 0.10 then true
  else false

/-- The rollback reason chosen by `monitor_action_outcome`. Each constructor
is one reason-message assignment site; the source interpolates the computed
improvement percentage (formatted to two decimals) into the first two
messages, so those constructors carry that exact rational. -/
inductive RollbackReason where
  | degradation (improvement_pct : ℚ)
  | insufficientImprovement (improvement_pct : ℚ)
  | newAnomalies
deriving Repr, DecidableEq

/-- The reason string passed to `executor.rollback_action`. The numeric
interpolation (`{improvement_pct:.2f}` in the source) is rendered with the
exact rational rather than a two-decimal float. -/
def RollbackReason.message : RollbackReason → String
  | .degradation pct =>
      "Degradation detected: " ++ toString pct ++ "% (threshold: -5.0%)"
  | .insufficientImprovement pct =>
      "Insufficient improvement: " ++ toString pct ++ "% (minimum: 2.0%)"
  | .newAnomalies => "New anomalies detected after intervention"

/-- The dict returned by `RollbackManager.monitor_action_outcome`: the
rollback branch carries the reason and the inner rollback result; the
healthy branch carries `status="success"`. -/
structure MonitorResult where
  action_id : String
  rollback_triggered : Bool
  rollback_reason : Option RollbackReason := none
  improvement_pct : ℚ
  baseline_success_rate : ℚ
  current_success_rate : ℚ
  rollback_result : Option RollbackResult := none
  status : Option String := none
deriving Repr, DecidableEq

/-- `RollbackManager.monitor_action_outcome`, after the observation-window
wait: computes the improvement percentage (0 when the baseline success rate
is not positive), evaluates the three triggers in priority order with the
first match winning, and performs the executor rollback when one fires.
`current_metrics` is the value fetched by `get_current_metrics_fn`. -/
def monitor_action_outcome (ex : ActionExecutorState) (action : Decision)
    (baseline_metrics current_metrics : Metrics) (now : ℤ) :
    MonitorResult × ActionExecutorState :=
  let baseline_success_rate := baseline_metrics.success_rate.getD 0
  let current_success_rate := current_metrics.success_rate.getD 0
  let improvement_pct :=
    if baseline_success_rate > 0 then
      (current_success_rate - baseline_success_rate) / baseline_success_rate
        * 100
    else 0
  let rollback_reason : Option RollbackReason :=
    if improvement_pct < DEGRADATION_THRESHOLD_PCT then
      some (.degradation improvement_pct)
    else if improvement_pct < MIN_IMPROVEMENT_THRESHOLD_PCT then
      some (.insufficientImprovement improvement_pct)
    else if detect_new_anomalies current_metrics then
      some .newAnomalies
    else none
  match rollback_reason with
  | some reason =>
      let rb := rollback_action ex action.action_id reason.message now
      ({ action_id := action.action_id
         rollback_triggered := true
         rollback_reason := some reason
         improvement_pct := improvement_pct
         baseline_success_rate := baseline_success_rate
         current_success_rate := current_success_rate
         rollback_result := some rb.1 }, rb.2)
  | none =>
      ({ action_id := action.action_id
         rollback_triggered := false
         improvement_pct := improvement_pct
         baseline_success_rate := baseline_success_rate
         current_success_rate := current_success_rate
         status := some "success" }, ex)

/-! ### OutcomeTracker (`components/outcome_tracker.py`) -/

/-- The `rollback_info` dict optionally passed to `track_outcome`. -/
structure RollbackInfo where
  rollback_triggered : Bool := false
  rollback_reason : Option String := none
deriving Repr, DecidableEq

/-- One sentence appended by `OutcomeTracker._generate_lessons`; each
constructor is one `lessons.append(...)` site with the interpolated data. -/
inductive Lesson where
  | actionSuccessful (action_type target_dimension target_value : String)
  | actionFailed (action_type target_dimension target_value : String)
  | achievedImprovement (improvement expected : ℚ)
  | performanceDegraded (improvement expected : ℚ)
  | routingAdvice (moreAggressive : Bool)
  | retryStormWarning
  | rateLimitTooAggressive
deriving Repr, DecidableEq

/-- `OutcomeTracker._generate_lessons` (the joined message list; the
`baseline_metrics` and `current_metrics` arguments are accepted but unused,
as in the source). -/
def generate_lessons (action : Decision) (improvement : ℚ)
    (met_expectations : Bool) : List Lesson :=
  let overall :=
    if met_expectations then
      [Lesson.actionSuccessful action.action_type action.target_dimension
        action.target_value]
    else
      [Lesson.actionFailed action.action_type action.target_dimension
        action.target_value]
  let insight :=
    if improvement > 0 then
      [Lesson.achievedImprovement improvement action.expected_improvement_pct]
    else
      [Lesson.performanceDegraded improvement action.expected_improvement_pct]
  let specific :=
    if action.action_type = "adjust_routing" then
      [Lesson.routingAdvice (improvement < action.expected_improvement_pct)]
    else if action.action_type = "modify_retry_config" then
      if improvement < 0 then [Lesson.retryStormWarning] else []
    else if action.action_type = "rate_limit" then
      if improvement < 0 then [Lesson.rateLimitTooAggressive] else []
    else []
  overall ++ insight ++ specific

/-- `OutcomeTracker._calculate_confidence_adjustment`. -/
def calculate_confidence_adjustment (action : Decision) (improvement : ℚ)
    (met_expectations : Bool) : ℚ :=
  if ¬met_expectations then
    if improvement < 0 then -0.2
    else -0.1
  else
    if improvement > action.expected_improvement_pct * 1.5 then 0.15
    else if improvement > action.expected_improvement_pct then 0.1
    else 0.05

/-- `ActionOutcome` (`models/outcome.py`) as constructed by
`track_outcome`; the two timestamps are the `now` at record creation. -/
structure ActionOutcome where
  action_id : String
  action_type : String
  executed_at : ℤ
  completed_at : ℤ
  status : String
  baseline_metrics : Metrics
  current_metrics : Metrics
  improvement_achieved : ℚ
  met_expectations : Bool
  rollback_triggered : Bool
  rollback_reason : Option String
  lessons_learned : List Lesson
  confidence_adjustment : ℚ
deriving Repr, DecidableEq

/-- `OutcomeTracker.track_outcome`: computes the achieved improvement (0
when the baseline success rate is not positive), checks expectations with
the 20% tolerance, determines the status, and appends the outcome record to
`self.outcomes`. -/
def track_outcome (outcomes : List ActionOutcome) (action : Decision)
    (baseline_metrics current_metrics : Metrics)
    (rollback_info : Option RollbackInfo) (now : ℤ) :
    ActionOutcome × List ActionOutcome :=
  let baseline_success := baseline_metrics.success_rate.getD 0
  let current_success := current_metrics.success_rate.getD 0
  let improvement_achieved :=
    if baseline_success > 0 then
      (current_success - baseline_success) / baseline_success * 100
    else 0
  let met_expectations :=
    decide (improvement_achieved ≥ action.expected_improvement_pct * 0.8)
  let status :=
    match rollback_info with
    | some info => if info.rollback_triggered then "rolled_back"
        else if met_expectations then "success" else "failed"
    | none => if met_expectations then "success" else "failed"
  let lessons := generate_lessons action improvement_achieved met_expectations
  let confidence_adjustment :=
    calculate_confidence_adjustment action improvement_achieved
      met_expectations
  let outcome : ActionOutcome :=
    { action_id := action.action_id
      action_type := action.action_type
      executed_at := now
      completed_at := now
      status := status
      baseline_metrics := baseline_metrics
      current_metrics := current_metrics
      improvement_achieved := improvement_achieved
      met_expectations := met_expectations
      rollback_triggered := rollback_info.isSome
      rollback_reason := match rollback_info with
        | some info => info.rollback_reason
        | none => none
      lessons_learned := lessons
      confidence_adjustment := confidence_adjustment }
  (outcome, outcomes ++ [outcome])

/-! ### LearningSystem (`components/learning_system.py`) -/

/-- Overwrite the value stored under a key already present in the dict. -/
def setConfidence (confidences : List (String × ℚ)) (pattern_type : String)
    (value : ℚ) : List (String × ℚ) :=
  confidences.map (fun e => if e.1 = pattern_type then (e.1, value) else e)

/-- `LearningSystem._update_pattern_confidence` acting on the
`pattern_confidences` dict: a pattern type not yet present is first seeded
with the supplied original confidence (so the subsequent read of
`current_confidence` always finds a stored value; the `getD` default is
never used), then the bounded additive update is applied and stored. -/
def update_pattern_confidence (confidences : List (String × ℚ))
    (pattern_type : String) (hypothesis_correct : Bool)
    (original_confidence : ℚ) : List (String × ℚ) :=
  let seeded :=
    match confidences.lookup pattern_type with
    | none => confidences ++ [(pattern_type, original_confidence)]
    | some _ => confidences
  let current_confidence := (seeded.lookup pattern_type).getD
    original_confidence
  let new_confidence :=
    if hypothesis_correct then min 0.95 (current_confidence + 0.05)
    else max 0.3 (current_confidence - 0.1)
  setConfidence seeded pattern_type new_confidence

/-! ### Registry operation sequences (for the concurrent-action invariant) -/

/-- One call into the `SafetyGuardrails` registry API. -/
inductive RegistryOp where
  | register (action : Decision) (now : ℤ)
  | deregister (action_id : String)
  | cleanup (now : ℤ)
deriving Repr

/-- Apply one registry operation to the guardrails state. -/
def apply_registry_op (g : SafetyGuardrails) : RegistryOp → SafetyGuardrails
  | .register a now => register_active_action g a now
  | .deregister action_id => deregister_active_action g action_id
  | .cleanup now => cleanup_expired_actions g now

/-- Run a sequence of registry operations. -/
def run_registry_ops (g : SafetyGuardrails) : List RegistryOp → SafetyGuardrails
  | [] => g
  | op :: ops => run_registry_ops (apply_registry_op g op) ops

/-- A sequence of registry operations is guarded when every `register` is
issued only after `validate_action` accepts the action in the registry
state at that moment (the discipline `main.py` follows: it registers only
decisions that just passed validation). -/
def GuardedOps (g : SafetyGuardrails) : List RegistryOp → Prop
  | [] => True
  | RegistryOp.register a now :: ops =>
      (validate_action g a).1 = true ∧
        GuardedOps (register_active_action g a now) ops
  | op :: ops => GuardedOps (apply_registry_op g op) ops

/-! ### Helper lemmas -/

lemma lookup_setConfidence (l : List (String × ℚ)) (k : String) (v : ℚ) :
    (setConfidence l k v).lookup k = (l.lookup k).map (fun _ => v) := by
  induction l with
  | nil => simp [setConfidence]
  | cons e t ih =>
      obtain ⟨k1, v1⟩ := e
      simp only [setConfidence, List.map_cons]
      by_cases h : k1 = k
      · subst h
        rw [if_pos rfl]
        simp [List.lookup]
      · rw [if_neg h]
        have hbe : (k == k1) = false :=
          beq_eq_false_iff_ne.mpr (fun hk => h hk.symm)
        simp only [List.lookup, hbe]
        simpa [setConfidence] using ih

lemma lookup_append_single (l : List (String × ℚ)) (k : String) (v : ℚ)
    (h : l.lookup k = none) : (l ++ [(k, v)]).lookup k = some v := by
  induction l with
  | nil => simp [List.lookup]
  | cons e t ih =>
      obtain ⟨k1, v1⟩ := e
      by_cases hk : k = k1
      · subst hk
        simp [List.lookup] at h
      · have hbe : (k == k1) = false := beq_eq_false_iff_ne.mpr hk
        simp only [List.cons_append, List.lookup, hbe] at h ⊢
        exact ih h

/-- C3 helper: the confidence stored after one update, in closed form. -/
lemma lookup_update_pattern_confidence (confidences : List (String × ℚ))
    (pattern_type : String) (hypothesis_correct : Bool)
    (original_confidence : ℚ) :
    (update_pattern_confidence confidences pattern_type hypothesis_correct
        original_confidence).lookup pattern_type =
      some (if hypothesis_correct then
          min 0.95 ((confidences.lookup pattern_type).getD original_confidence
            + 0.05)
        else
          max 0.3 ((confidences.lookup pattern_type).getD original_confidence
            - 0.1)) := by
  unfold update_pattern_confidence
  cases hl : confidences.lookup pattern_type with
  | none => simp [lookup_setConfidence, lookup_append_single _ _ _ hl]
  | some c => simp [lookup_setConfidence, hl]

/-- C3: the per-pattern confidence update is bounded. The first observation
of a pattern type seeds the stored confidence from the supplied hypothesis
confidence and the update is then applied to it; a correct hypothesis
stores `min 0.95 (current + 0.05)` and an incorrect one stores
`max 0.3 (current - 0.1)`, so the value stored by any correct update is at
most 0.95 and the value stored by any incorrect update is at least 0.3 —
in particular repeated correct updates never exceed 0.95 and repeated
incorrect updates never fall below 0.3. -/
theorem update_pattern_confidence_bounded (confidences : List (String × ℚ))
    (pattern_type : String) (hypothesis_correct : Bool)
    (original_confidence : ℚ) :
    ((update_pattern_confidence confidences pattern_type hypothesis_correct
        original_confidence).lookup pattern_type =
      some (if hypothesis_correct then
          min 0.95 ((confidences.lookup pattern_type).getD original_confidence
            + 0.05)
        else
          max 0.3 ((confidences.lookup pattern_type).getD original_confidence
            - 0.1))) ∧
    (∀ v, hypothesis_correct = true →
      (update_pattern_confidence confidences pattern_type hypothesis_correct
        original_confidence).lookup pattern_type = some v → v ≤ 0.95) ∧
    (∀ v, hypothesis_correct = false →
      (update_pattern_confidence confidences pattern_type hypothesis_correct
        original_confidence).lookup pattern_type = some v → 0.3 ≤ v) := by
  refine ⟨lookup_update_pattern_confidence _ _ _ _, ?_, ?_⟩
  · intro v hc hv
    rw [lookup_update_pattern_confidence, hc] at hv
    simp only [if_true, Option.some_inj] at hv
    rw [← hv]
    exact min_le_left _ _
  · intro v hc hv
    rw [lookup_update_pattern_confidence, hc] at hv
    simp only [Bool.false_eq_true, if_false, Option.some_inj] at hv
    rw [← hv]
    exact le_max_left _ _

/-- Witness for the bounded-update theorem at a concrete input: seeding the
pattern `"volume_drop"` at confidence 1 and applying a correct update
stores `min 0.95 1.05 = 0.95`, which is at most 0.95. -/
theorem update_pattern_confidence_bounded_witness :
    (update_pattern_confidence [] "volume_drop" true 1).lookup "volume_drop"
        = some (min 0.95 (1 + 0.05)) ∧
      min (0.95 : ℚ) (1 + 0.05) ≤ 0.95 := by
  have h := update_pattern_confidence_bounded [] "volume_drop" true 1
  have h1 := h.1
  simp only [List.lookup, Option.getD, if_true] at h1
  exact ⟨h1, h.2.1 _ rfl h1⟩

/-! ### C8: end-to-end scenario B -/

/-- Scenario B decision: `circuit_break` on the critical issuer `CHASE`,
marked high risk, confidence 0.9, otherwise valid (default duration 60). -/
def scenarioB_decision : Decision :=
  { action_id := "action-b"
    action_type := "circuit_break"
    target_dimension := "issuer_bank"
    target_value := "CHASE"
    expected_improvement_pct := 5
    estimated_risk_level := "high"
    confidence := 0.9 }

/-- C8: with an empty registry, the scenario B decision is rejected, and the
violations list contains exactly the human-approval violation and the
critical-infrastructure violation for `CHASE` — in particular both are
present. -/
theorem scenarioB_validation_fails :
    (validate_action {} scenarioB_decision).1 = false ∧
    Violation.criticalIssuer "CHASE" ∈ (validate_action {} scenarioB_decision).2 ∧
    Violation.highRiskRequiresHuman ∈ (validate_action {} scenarioB_decision).2 ∧
    (validate_action {} scenarioB_decision).2 =
      [Violation.highRiskRequiresHuman, Violation.criticalIssuer "CHASE"] := by
  have hval : validate_action {} scenarioB_decision =
      (false, [Violation.highRiskRequiresHuman,
        Violation.criticalIssuer "CHASE"]) := by
    simp [validate_action, validate_action_parameters,
      check_critical_infrastructure, scenarioB_decision,
      MIN_CONFIDENCE_THRESHOLD, MAX_CONCURRENT_ACTIONS,
      HIGH_RISK_REQUIRES_HUMAN, critical_issuers, critical_methods]
    norm_num
  rw [hval]
  simp

/-! ### C5: validation evaluates all rules, no short-circuit -/

/-- C5: `validate_action` accepts exactly when the violations list is empty,
and every rule contributes its violations independently of the others: a
low confidence, a full registry, each parameter violation, a high risk
level, and each critical-infrastructure violation all appear in the
returned list whenever their own condition holds, regardless of the other
rules. -/
theorem validate_action_all_rules (g : SafetyGuardrails) (a : Decision) :
    ((validate_action g a).1 = true ↔ (validate_action g a).2 = []) ∧
    (a.confidence < MIN_CONFIDENCE_THRESHOLD →
      Violation.confidenceBelowMin a.confidence ∈ (validate_action g a).2) ∧
    (g.active_actions.length ≥ MAX_CONCURRENT_ACTIONS →
      Violation.tooManyActive g.active_actions.length ∈
        (validate_action g a).2) ∧
    (∀ v ∈ validate_action_parameters a, v ∈ (validate_action g a).2) ∧
    (a.estimated_risk_level = "high" →
      Violation.highRiskRequiresHuman ∈ (validate_action g a).2) ∧
    (∀ v ∈ check_critical_infrastructure a, v ∈ (validate_action g a).2) := by
  refine ⟨?_, ?_, ?_, ?_, ?_, ?_⟩ <;>
    simp only [validate_action, HIGH_RISK_REQUIRES_HUMAN, and_true,
      List.isEmpty_iff, List.mem_append] <;>
    intros <;> simp_all

/-- Witness for C5 at a concrete input: a full registry and a low-confidence
high-risk decision; each hypothesis is discharged and the promised
violations are in the list. -/
theorem validate_action_all_rules_witness :
    Violation.confidenceBelowMin 0.5 ∈
      (validate_action
        { active_actions :=
            [{ action_id := "x1", action_type := "rate_limit",
               started_at := 0, expires_at := 60 },
             { action_id := "x2", action_type := "rate_limit",
               started_at := 0, expires_at := 60 },
             { action_id := "x3", action_type := "rate_limit",
               started_at := 0, expires_at := 60 }] }
        { action_id := "w", action_type := "do_nothing",
          target_dimension := "issuer_bank", target_value := "HDFC",
          expected_improvement_pct := 1, estimated_risk_level := "high",
          confidence := 0.5 }).2 ∧
    Violation.tooManyActive 3 ∈
      (validate_action
        { active_actions :=
            [{ action_id := "x1", action_type := "rate_limit",
               started_at := 0, expires_at := 60 },
             { action_id := "x2", action_type := "rate_limit",
               started_at := 0, expires_at := 60 },
             { action_id := "x3", action_type := "rate_limit",
               started_at := 0, expires_at := 60 }] }
        { action_id := "w", action_type := "do_nothing",
          target_dimension := "issuer_bank", target_value := "HDFC",
          expected_improvement_pct := 1, estimated_risk_level := "high",
          confidence := 0.5 }).2 ∧
    Violation.highRiskRequiresHuman ∈
      (validate_action
        { active_actions :=
            [{ action_id := "x1", action_type := "rate_limit",
               started_at := 0, expires_at := 60 },
             { action_id := "x2", action_type := "rate_limit",
               started_at := 0, expires_at := 60 },
             { action_id := "x3", action_type := "rate_limit",
               started_at := 0, expires_at := 60 }] }
        { action_id := "w", action_type := "do_nothing",
          target_dimension := "issuer_bank", target_value := "HDFC",
          expected_improvement_pct := 1, estimated_risk_level := "high",
          confidence := 0.5 }).2 := by
  have h := validate_action_all_rules
    { active_actions :=
        [{ action_id := "x1", action_type := "rate_limit",
           started_at := 0, expires_at := 60 },
         { action_id := "x2", action_type := "rate_limit",
           started_at := 0, expires_at := 60 },
         { action_id := "x3", action_type := "rate_limit",
           started_at := 0, expires_at := 60 }] }
    { action_id := "w", action_type := "do_nothing",
      target_dimension := "issuer_bank", target_value := "HDFC",
      expected_improvement_pct := 1, estimated_risk_level := "high",
      confidence := 0.5 }
  exact ⟨h.2.1 (by norm_num [MIN_CONFIDENCE_THRESHOLD]),
    h.2.2.1 (by norm_num [MAX_CONCURRENT_ACTIONS]),
    h.2.2.2.2.1 rfl⟩

/-! ### C10: retry-config validation is guarded against division by zero -/

/-- C10: for a `modify_retry_config` decision the retry-increase rule reads
its two parameters with default 1, so a decision with both parameters
missing produces no retry-increase violation; whenever the current retry
count is not positive the rule is skipped entirely, so no retry-increase
violation is reported no matter what the new retry count is (the division
is evaluated only under the positivity guard); and when the guard passes,
the reported increase is exactly `new / current`. -/
theorem retry_rule_division_guard (g : SafetyGuardrails) (a : Decision)
    (htype : a.action_type = "modify_retry_config") :
    ((a.parameters.current_max_retries = none ∧
        a.parameters.new_max_retries = none) →
      ∀ r, Violation.retryIncreaseExceedsMax r ∉ (validate_action g a).2) ∧
    (a.parameters.current_max_retries.getD 1 ≤ 0 →
      ∀ r, Violation.retryIncreaseExceedsMax r ∉ (validate_action g a).2) ∧
    (a.parameters.current_max_retries.getD 1 > 0 →
      a.parameters.new_max_retries.getD 1 /
          a.parameters.current_max_retries.getD 1 > MAX_RETRY_INCREASE →
      Violation.retryIncreaseExceedsMax
          (a.parameters.new_max_retries.getD 1 /
            a.parameters.current_max_retries.getD 1) ∈
        (validate_action g a).2) := by
  refine ⟨?_, ?_, ?_⟩
  · rintro ⟨hc, hn⟩ r
    simp only [validate_action, validate_action_parameters,
      check_critical_infrastructure, htype, hc, hn, List.mem_append]
    norm_num
    split_ifs <;> (simp_all; all_goals norm_num [MAX_RETRY_INCREASE] at * )
  · intro hc r
    have hc' : ¬ a.parameters.current_max_retries.getD 1 > 0 := not_lt.mpr hc
    simp only [validate_action, validate_action_parameters,
      check_critical_infrastructure, htype, List.mem_append]
    norm_num
    split_ifs <;> simp_all
  · intro hc hr
    simp only [validate_action, validate_action_parameters,
      check_critical_infrastructure, htype, List.mem_append]
    norm_num
    split_ifs <;> simp_all

/-- Witness for C10 at a concrete input: a `modify_retry_config` decision
with `current_max_retries = 0` and an enormous `new_max_retries` yields no
retry-increase violation. -/
theorem retry_rule_division_guard_witness :
    Violation.retryIncreaseExceedsMax 1000000 ∉
      (validate_action {}
        { action_id := "r0", action_type := "modify_retry_config",
          target_dimension := "issuer_bank", target_value := "HDFC",
          parameters := { current_max_retries := some 0,
                          new_max_retries := some 1000000 },
          expected_improvement_pct := 1, estimated_risk_level := "low",
          confidence := 0.9 }).2 :=
  (retry_rule_division_guard {}
    { action_id := "r0", action_type := "modify_retry_config",
      target_dimension := "issuer_bank", target_value := "HDFC",
      parameters := { current_max_retries := some 0,
                      new_max_retries := some 1000000 },
      expected_improvement_pct := 1, estimated_risk_level := "low",
      confidence := 0.9 } rfl).2.1 (by norm_num) 1000000

/-! ### C2: the concurrent-action limit -/

/-- Acceptance implies a free slot: if `validate_action` accepts, fewer than
`MAX_CONCURRENT_ACTIONS` actions are active (the concurrency check is one
of the conjoined rules). -/
lemma validate_accepted_length_lt (g : SafetyGuardrails) (a : Decision)
    (h : (validate_action g a).1 = true) :
    g.active_actions.length < MAX_CONCURRENT_ACTIONS := by
  by_contra hge
  have hge' : g.active_actions.length ≥ MAX_CONCURRENT_ACTIONS :=
    not_lt.mp hge
  simp only [validate_action, List.isEmpty_iff, if_pos hge'] at h
  simp at h

/-- Guarded sequences preserve the concurrency bound, from any state within
the bound. -/
lemma guarded_ops_preserve_limit (ops : List RegistryOp) :
    ∀ g : SafetyGuardrails,
      g.active_actions.length ≤ MAX_CONCURRENT_ACTIONS →
      GuardedOps g ops →
      (run_registry_ops g ops).active_actions.length ≤
        MAX_CONCURRENT_ACTIONS := by
  induction ops with
  | nil => intro g hg _; exact hg
  | cons op ops ih =>
      intro g hg hops
      cases op with
      | register a now =>
          obtain ⟨hv, hrest⟩ := hops
          have hlt := validate_accepted_length_lt g a hv
          refine ih _ ?_ ?_
          · simpa [apply_registry_op, register_active_action] using hlt
          · simpa [apply_registry_op] using hrest
      | deregister action_id =>
          refine ih _ ?_ hops
          exact le_trans
            (by simpa [apply_registry_op, deregister_active_action] using
              List.length_filter_le _ g.active_actions) hg
      | cleanup now =>
          refine ih _ ?_ hops
          exact le_trans
            (by simpa [apply_registry_op, cleanup_expired_actions] using
              List.length_filter_le _ g.active_actions) hg

/-- A decision that passes every safety rule (used to populate the
registry). -/
def benign_decision : Decision :=
  { action_id := "fill"
    action_type := "rate_limit"
    target_dimension := "issuer_bank"
    target_value := "HDFC"
    parameters := { reduction_pct := some 20 }
    expected_improvement_pct := 3
    estimated_risk_level := "low"
    confidence := 0.8 }

/-- C2 counterexample: `register_active_action` itself enforces no limit.
Four bare registrations from the empty registry leave four active actions,
exceeding `MAX_CONCURRENT_ACTIONS = 3`, so not every sequence of registry
operations keeps the count within the limit. -/
theorem register_unguarded_exceeds_limit :
    (run_registry_ops {}
        [RegistryOp.register benign_decision 0,
         RegistryOp.register benign_decision 0,
         RegistryOp.register benign_decision 0,
         RegistryOp.register benign_decision 0]).active_actions.length = 4 ∧
      ¬ (run_registry_ops {}
        [RegistryOp.register benign_decision 0,
         RegistryOp.register benign_decision 0,
         RegistryOp.register benign_decision 0,
         RegistryOp.register benign_decision 0]).active_actions.length ≤
          MAX_CONCURRENT_ACTIONS := by
  constructor <;>
    simp [run_registry_ops, apply_registry_op, register_active_action,
      MAX_CONCURRENT_ACTIONS]

/-- C2 (amended): starting from the empty registry, any sequence of
registry operations in which every `register_active_action` is issued only
after `validate_action` accepts the action in the current registry state
keeps the number of active actions at most `MAX_CONCURRENT_ACTIONS`;
`register_active_action` alone does not enforce the limit (see the
counterexample). -/
theorem guarded_registry_respects_limit (ops : List RegistryOp)
    (h : GuardedOps {} ops) :
    (run_registry_ops {} ops).active_actions.length ≤
      MAX_CONCURRENT_ACTIONS :=
  guarded_ops_preserve_limit ops {} (by simp [MAX_CONCURRENT_ACTIONS]) h

/-- Witness for the amended C2 theorem: one guarded registration of a
benign decision keeps the registry within the limit. -/
theorem guarded_registry_respects_limit_witness :
    GuardedOps {} [RegistryOp.register benign_decision 0] ∧
      (run_registry_ops {}
        [RegistryOp.register benign_decision 0]).active_actions.length ≤
        MAX_CONCURRENT_ACTIONS := by
  have hg : GuardedOps {} [RegistryOp.register benign_decision 0] := by
    refine ⟨?_, trivial⟩
    simp [validate_action, validate_action_parameters,
      check_critical_infrastructure, benign_decision,
      MIN_CONFIDENCE_THRESHOLD, MAX_CONCURRENT_ACTIONS,
      HIGH_RISK_REQUIRES_HUMAN, MAX_TRAFFIC_REDUCTION_PCT,
      critical_issuers, critical_methods]
    norm_num
  exact ⟨hg, guarded_registry_respects_limit _ hg⟩

/-! ### C4: the improvement percentage is total and exact -/

lemma monitor_improvement_pct_eq (ex : ActionExecutorState)
    (action : Decision) (b c : Metrics) (now : ℤ) :
    (monitor_action_outcome ex action b c now).1.improvement_pct =
      if b.success_rate.getD 0 > 0 then
        (c.success_rate.getD 0 - b.success_rate.getD 0) /
          b.success_rate.getD 0 * 100
      else 0 := by
  simp only [monitor_action_outcome]
  split_ifs <;> rfl

lemma track_improvement_achieved_eq (outcomes : List ActionOutcome)
    (action : Decision) (b c : Metrics) (info : Option RollbackInfo)
    (now : ℤ) :
    (track_outcome outcomes action b c info now).1.improvement_achieved =
      if b.success_rate.getD 0 > 0 then
        (c.success_rate.getD 0 - b.success_rate.getD 0) /
          b.success_rate.getD 0 * 100
      else 0 := by
  unfold track_outcome
  rfl

/-- C4: both the rollback monitor and the outcome assessor define the
improvement percentage as 0 when the baseline success rate is 0 (no
division error, no undefined value), and as
`(current − baseline) / baseline * 100` when the baseline success rate is
positive. -/
theorem improvement_pct_zero_baseline_safe (ex : ActionExecutorState)
    (action : Decision) (b c : Metrics) (now : ℤ)
    (outcomes : List ActionOutcome) (info : Option RollbackInfo) :
    (b.success_rate.getD 0 = 0 →
      (monitor_action_outcome ex action b c now).1.improvement_pct = 0 ∧
      (track_outcome outcomes action b c info now).1.improvement_achieved
        = 0) ∧
    (b.success_rate.getD 0 > 0 →
      (monitor_action_outcome ex action b c now).1.improvement_pct =
        (c.success_rate.getD 0 - b.success_rate.getD 0) /
          b.success_rate.getD 0 * 100 ∧
      (track_outcome outcomes action b c info now).1.improvement_achieved =
        (c.success_rate.getD 0 - b.success_rate.getD 0) /
          b.success_rate.getD 0 * 100) := by
  rw [monitor_improvement_pct_eq, track_improvement_achieved_eq]
  constructor
  · intro h
    rw [h]
    norm_num
  · intro h
    rw [if_pos h]
    exact ⟨rfl, rfl⟩

/-- Witness for C4 at concrete inputs: a zero baseline success rate gives
improvement 0; the positive baseline 1/2 with current 3/4 gives 50%. -/
theorem improvement_pct_zero_baseline_safe_witness :
    ((monitor_action_outcome {} benign_decision { success_rate := some 0 }
        { success_rate := some (9/10) } 0).1.improvement_pct = 0 ∧
      (track_outcome [] benign_decision { success_rate := some 0 }
        { success_rate := some (9/10) } none 0).1.improvement_achieved
        = 0) ∧
    ((monitor_action_outcome {} benign_decision
        { success_rate := some (1/2) }
        { success_rate := some (3/4) } 0).1.improvement_pct =
        (3/4 - 1/2) / (1/2) * 100 ∧
      (track_outcome [] benign_decision { success_rate := some (1/2) }
        { success_rate := some (3/4) } none 0).1.improvement_achieved =
        (3/4 - 1/2) / (1/2) * 100) := by
  constructor
  · exact (improvement_pct_zero_baseline_safe {} benign_decision
      { success_rate := some 0 } { success_rate := some (9/10) } 0 []
      none).1 (by norm_num)
  · exact (improvement_pct_zero_baseline_safe {} benign_decision
      { success_rate := some (1/2) } { success_rate := some (3/4) } 0 []
      none).2 (by norm_num)

/-! ### C6: confidence adjustment and end-to-end scenario C -/

/-- Scenario C decision: expected improvement 8%. -/
def scenarioC_decision : Decision :=
  { action_id := "action-c"
    action_type := "adjust_routing"
    target_dimension := "issuer_bank"
    target_value := "HDFC"
    parameters := { from_gateway := some "gateway_a",
                    to_gateway := some "gateway_b", shift_pct := some 30 }
    expected_improvement_pct := 8
    estimated_risk_level := "medium"
    confidence := 0.75 }

/-- Scenario C baseline metrics. -/
def scenarioC_baseline : Metrics := { success_rate := some 0.82 }

/-- Scenario C current metrics. -/
def scenarioC_current : Metrics := { success_rate := some 0.89 }

/-- C6: the confidence adjustment follows the five ordered cases — not met
and degraded gives −0.2; not met and non-negative gives −0.1; met and
beyond 1.5× expected gives +0.15; met, within 1.5× but above expected
gives +0.1; met without exceeding expected (tolerance only) gives +0.05 —
and on scenario C (baseline success rate 0.82, current 0.89, expected
improvement 8%) the tracked outcome has improvement 350/41 ≈ 8.54%, met
expectations, status `"success"` and adjustment +0.1. -/
theorem confidence_adjustment_cases :
    (∀ (action : Decision) (improvement : ℚ) (met : Bool),
      (met = false → improvement < 0 →
        calculate_confidence_adjustment action improvement met = -0.2) ∧
      (met = false → 0 ≤ improvement →
        calculate_confidence_adjustment action improvement met = -0.1) ∧
      (met = true → improvement > action.expected_improvement_pct * 1.5 →
        calculate_confidence_adjustment action improvement met = 0.15) ∧
      (met = true → improvement ≤ action.expected_improvement_pct * 1.5 →
        improvement > action.expected_improvement_pct →
        calculate_confidence_adjustment action improvement met = 0.1) ∧
      (met = true → improvement ≤ action.expected_improvement_pct * 1.5 →
        improvement ≤ action.expected_improvement_pct →
        calculate_confidence_adjustment action improvement met = 0.05)) ∧
    ((track_outcome [] scenarioC_decision scenarioC_baseline
        scenarioC_current none 0).1.improvement_achieved = 350/41 ∧
      (853/100 : ℚ) < 350/41 ∧ (350/41 : ℚ) < 855/100 ∧
      (track_outcome [] scenarioC_decision scenarioC_baseline
        scenarioC_current none 0).1.met_expectations = true ∧
      (track_outcome [] scenarioC_decision scenarioC_baseline
        scenarioC_current none 0).1.status = "success" ∧
      (track_outcome [] scenarioC_decision scenarioC_baseline
        scenarioC_current none 0).1.confidence_adjustment = 0.1) := by
  constructor
  · intro action improvement met
    refine ⟨?_, ?_, ?_, ?_, ?_⟩
    · intro hm hi
      simp [calculate_confidence_adjustment, hm, hi]
    · intro hm hi
      simp [calculate_confidence_adjustment, hm, not_lt.mpr hi]
    · intro hm hi
      simp [calculate_confidence_adjustment, hm, hi]
    · intro hm h15 hgt
      simp [calculate_confidence_adjustment, hm, not_lt.mpr h15, hgt]
    · intro hm h15 hle
      simp [calculate_confidence_adjustment, hm, not_lt.mpr h15,
        not_lt.mpr hle]
  · refine ⟨?_, by norm_num, by norm_num, ?_, ?_, ?_⟩ <;>
      simp [track_outcome, scenarioC_decision, scenarioC_baseline,
        scenarioC_current, generate_lessons,
        calculate_confidence_adjustment] <;>
      norm_num

/-- Witness for the case analysis in the confidence-adjustment theorem: a
failed, degraded outcome (improvement −1) gets adjustment −0.2. -/
theorem confidence_adjustment_cases_witness :
    calculate_confidence_adjustment scenarioC_decision (-1) false = -0.2 :=
  (confidence_adjustment_cases.1 scenarioC_decision (-1) false).1 rfl
    (by norm_num)

/-! ### C7: rollback triggers fire in priority order -/

lemma monitor_triggered_eq (ex : ActionExecutorState) (action : Decision)
    (b c : Metrics) (now : ℤ) :
    (monitor_action_outcome ex action b c now).1.rollback_triggered =
      (if (if b.success_rate.getD 0 > 0 then
            (c.success_rate.getD 0 - b.success_rate.getD 0) /
              b.success_rate.getD 0 * 100
          else 0) < DEGRADATION_THRESHOLD_PCT then true
      else if (if b.success_rate.getD 0 > 0 then
            (c.success_rate.getD 0 - b.success_rate.getD 0) /
              b.success_rate.getD 0 * 100
          else 0) < MIN_IMPROVEMENT_THRESHOLD_PCT then true
      else if detect_new_anomalies c then true
      else false) := by
  simp only [monitor_action_outcome]
  split_ifs <;> rfl

lemma monitor_reason_eq (ex : ActionExecutorState) (action : Decision)
    (b c : Metrics) (now : ℤ) :
    (monitor_action_outcome ex action b c now).1.rollback_reason =
      (if (if b.success_rate.getD 0 > 0 then
            (c.success_rate.getD 0 - b.success_rate.getD 0) /
              b.success_rate.getD 0 * 100
          else 0) < DEGRADATION_THRESHOLD_PCT then
        some (RollbackReason.degradation
          (if b.success_rate.getD 0 > 0 then
            (c.success_rate.getD 0 - b.success_rate.getD 0) /
              b.success_rate.getD 0 * 100
          else 0))
      else if (if b.success_rate.getD 0 > 0 then
            (c.success_rate.getD 0 - b.success_rate.getD 0) /
              b.success_rate.getD 0 * 100
          else 0) < MIN_IMPROVEMENT_THRESHOLD_PCT then
        some (RollbackReason.insufficientImprovement
          (if b.success_rate.getD 0 > 0 then
            (c.success_rate.getD 0 - b.success_rate.getD 0) /
              b.success_rate.getD 0 * 100
          else 0))
      else if detect_new_anomalies c then some RollbackReason.newAnomalies
      else none) := by
  simp only [monitor_action_outcome]
  split_ifs <;> rfl

/-- Scenario D decision. -/
def scenarioD_decision : Decision :=
  { action_id := "action-d"
    action_type := "adjust_routing"
    target_dimension := "issuer_bank"
    target_value := "HDFC"
    expected_improvement_pct := 8
    estimated_risk_level := "medium"
    confidence := 0.75 }

/-- Scenario D baseline metrics. -/
def scenarioD_baseline : Metrics := { success_rate := some 0.82 }

/-- Scenario D current metrics. -/
def scenarioD_current : Metrics := { success_rate := some 0.70 }

/-- C7: the monitor evaluates its triggers in fixed priority order with the
first match winning — degradation (improvement below −5%), then
insufficient improvement (below 2%), then new anomalies — and reports
`rollback_triggered = true` with the matched reason exactly when some
trigger fires. On scenario D (baseline success rate 0.82, current 0.70) the
computed improvement is −600/41 ≈ −14.63%, the degradation trigger fires,
and the reason carries that computed percentage (the source interpolates it
into the degradation message string). -/
theorem monitor_triggers_in_priority_order :
    (∀ (ex : ActionExecutorState) (action : Decision) (b c : Metrics)
        (now : ℤ),
      ((monitor_action_outcome ex action b c now).1.rollback_triggered = true
          ↔
        ((monitor_action_outcome ex action b c now).1.improvement_pct <
            DEGRADATION_THRESHOLD_PCT ∨
          (monitor_action_outcome ex action b c now).1.improvement_pct <
            MIN_IMPROVEMENT_THRESHOLD_PCT ∨
          detect_new_anomalies c = true)) ∧
      ((monitor_action_outcome ex action b c now).1.improvement_pct <
          DEGRADATION_THRESHOLD_PCT →
        (monitor_action_outcome ex action b c now).1.rollback_reason =
          some (RollbackReason.degradation
            (monitor_action_outcome ex action b c now).1.improvement_pct)) ∧
      (¬ (monitor_action_outcome ex action b c now).1.improvement_pct <
          DEGRADATION_THRESHOLD_PCT →
        (monitor_action_outcome ex action b c now).1.improvement_pct <
          MIN_IMPROVEMENT_THRESHOLD_PCT →
        (monitor_action_outcome ex action b c now).1.rollback_reason =
          some (RollbackReason.insufficientImprovement
            (monitor_action_outcome ex action b c now).1.improvement_pct)) ∧
      (¬ (monitor_action_outcome ex action b c now).1.improvement_pct <
          DEGRADATION_THRESHOLD_PCT →
        ¬ (monitor_action_outcome ex action b c now).1.improvement_pct <
          MIN_IMPROVEMENT_THRESHOLD_PCT →
        detect_new_anomalies c = true →
        (monitor_action_outcome ex action b c now).1.rollback_reason =
          some RollbackReason.newAnomalies) ∧
      (¬ (monitor_action_outcome ex action b c now).1.improvement_pct <
          DEGRADATION_THRESHOLD_PCT →
        ¬ (monitor_action_outcome ex action b c now).1.improvement_pct <
          MIN_IMPROVEMENT_THRESHOLD_PCT →
        detect_new_anomalies c = false →
        (monitor_action_outcome ex action b c now).1.rollback_triggered =
            false ∧
          (monitor_action_outcome ex action b c now).1.rollback_reason =
            none)) ∧
    ((monitor_action_outcome {} scenarioD_decision scenarioD_baseline
        scenarioD_current 0).1.rollback_triggered = true ∧
      (monitor_action_outcome {} scenarioD_decision scenarioD_baseline
        scenarioD_current 0).1.improvement_pct = -600/41 ∧
      (monitor_action_outcome {} scenarioD_decision scenarioD_baseline
        scenarioD_current 0).1.rollback_reason =
        some (RollbackReason.degradation (-600/41)) ∧
      (-600/41 : ℚ) < DEGRADATION_THRESHOLD_PCT) := by
  constructor
  · intro ex action b c now
    rw [monitor_improvement_pct_eq, monitor_triggered_eq, monitor_reason_eq]
    split_ifs <;> simp_all
  · have himp : (monitor_action_outcome {} scenarioD_decision
        scenarioD_baseline scenarioD_current 0).1.improvement_pct =
        -600/41 := by
      rw [monitor_improvement_pct_eq]
      simp [scenarioD_baseline, scenarioD_current]
      norm_num
    have hdeg : ((-600 : ℚ)/41) < DEGRADATION_THRESHOLD_PCT := by
      norm_num [DEGRADATION_THRESHOLD_PCT]
    refine ⟨?_, himp, ?_, hdeg⟩
    · rw [monitor_triggered_eq]
      simp [scenarioD_baseline, scenarioD_current,
        DEGRADATION_THRESHOLD_PCT]
      norm_num
    · rw [monitor_reason_eq]
      simp [scenarioD_baseline, scenarioD_current,
        DEGRADATION_THRESHOLD_PCT]
      norm_num

/-- Witness for the priority theorem: with a healthy improvement (baseline
1/2, current 3/4, improvement 50%) and clean metrics, no trigger fires. -/
theorem monitor_triggers_in_priority_order_witness :
    (monitor_action_outcome {} scenarioD_decision
        { success_rate := some (1/2) }
        { success_rate := some (3/4), error_rate := some 0,
          p95_latency_ms := some 100, timeout_rate := some 0 }
        0).1.rollback_triggered = false ∧
      (monitor_action_outcome {} scenarioD_decision
        { success_rate := some (1/2) }
        { success_rate := some (3/4), error_rate := some 0,
          p95_latency_ms := some 100, timeout_rate := some 0 }
        0).1.rollback_reason = none := by
  have h := (monitor_triggers_in_priority_order.1 {} scenarioD_decision
    { success_rate := some (1/2) }
    { success_rate := some (3/4), error_rate := some 0,
      p95_latency_ms := some 100, timeout_rate := some 0 } 0)
  have himp : (monitor_action_outcome {} scenarioD_decision
      { success_rate := some (1/2) }
      { success_rate := some (3/4), error_rate := some 0,
        p95_latency_ms := some 100, timeout_rate := some 0 }
      0).1.improvement_pct = 50 := by
    rw [monitor_improvement_pct_eq]
    norm_num
  have hanom : detect_new_anomalies
      { success_rate := some (3/4), error_rate := some 0,
        p95_latency_ms := some 100, timeout_rate := some 0 } = false := by
    simp [detect_new_anomalies]
    norm_num
  exact h.2.2.2.2
    (by rw [himp]; norm_num [DEGRADATION_THRESHOLD_PCT])
    (by rw [himp]; norm_num [MIN_IMPROVEMENT_THRESHOLD_PCT]) hanom

/-! ### C9: execution failures are contained -/

/-- C9: an unknown action type makes the dispatch raise, the `except`
boundary catches it, and `execute_action` returns `status="failed"` with
the error message and the baseline snapshot captured before any effect,
leaving the registry unchanged; likewise any error produced inside the
dispatched handler (`Except.error e` reaching the boundary) is returned as
`status="failed"` with message `e` and the baseline attached, never
propagated. -/
theorem execute_action_failure_contained (ex : ActionExecutorState)
    (action : Decision) (cs : CurrentState) (now : ℤ) :
    (action.action_type ∉ ["adjust_routing", "modify_retry_config",
        "rate_limit", "circuit_break", "alert_merchant", "do_nothing"] →
      (execute_action ex action cs now).1.status = "failed" ∧
      (execute_action ex action cs now).1.error =
        some ("Unknown action type: " ++ action.action_type) ∧
      (execute_action ex action cs now).1.baseline_snapshot =
        capture_state_snapshot now cs ∧
      (execute_action ex action cs now).2 = ex) ∧
    (∀ e : String,
      (execute_with_handler_outcome ex action cs now (.error e)).1.status =
        "failed" ∧
      (execute_with_handler_outcome ex action cs now (.error e)).1.error =
        some e ∧
      (execute_with_handler_outcome ex action cs now
        (.error e)).1.baseline_snapshot = capture_state_snapshot now cs ∧
      (execute_with_handler_outcome ex action cs now (.error e)).2 = ex) := by
  constructor
  · intro h
    simp only [List.mem_cons, List.not_mem_nil, or_false, not_or] at h
    obtain ⟨h1, h2, h3, h4, h5, h6⟩ := h
    simp [execute_action, execute_handler, execute_with_handler_outcome,
      h1, h2, h3, h4, h5, h6]
  · intro e
    simp [execute_with_handler_outcome]

/-- Witness for the failure-containment theorem: a decision with the
unknown action type `"explode"` is reported as failed with the unknown-type
message and the captured baseline, and the registry stays empty. -/
theorem execute_action_failure_contained_witness :
    (execute_action {}
        { action_id := "u1", action_type := "explode",
          target_dimension := "issuer_bank", target_value := "HDFC",
          expected_improvement_pct := 1, estimated_risk_level := "low",
          confidence := 0.9 } {} 0).1.status = "failed" ∧
      (execute_action {}
        { action_id := "u1", action_type := "explode",
          target_dimension := "issuer_bank", target_value := "HDFC",
          expected_improvement_pct := 1, estimated_risk_level := "low",
          confidence := 0.9 } {} 0).1.error =
        some ("Unknown action type: " ++ "explode") ∧
      (execute_action {}
        { action_id := "u1", action_type := "explode",
          target_dimension := "issuer_bank", target_value := "HDFC",
          expected_improvement_pct := 1, estimated_risk_level := "low",
          confidence := 0.9 } {} 0).1.baseline_snapshot =
        capture_state_snapshot 0 {} ∧
      (execute_action {}
        { action_id := "u1", action_type := "explode",
          target_dimension := "issuer_bank", target_value := "HDFC",
          expected_improvement_pct := 1, estimated_risk_level := "low",
          confidence := 0.9 } {} 0).2 = {} := by
  exact (execute_action_failure_contained {}
    { action_id := "u1", action_type := "explode",
      target_dimension := "issuer_bank", target_value := "HDFC",
      expected_improvement_pct := 1, estimated_risk_level := "low",
      confidence := 0.9 } {} 0).1 (by simp)

/-! ### C1: rollback is not idempotent -/

/-- The decision used to exercise the rollback path. -/
def rollbackProbe_decision : Decision :=
  { action_id := "a1"
    action_type := "rate_limit"
    target_dimension := "payment_method"
    target_value := "card"
    parameters := { reduction_pct := some 40 }
    duration_minutes := 20
    expected_improvement_pct := 8
    estimated_risk_level := "medium"
    confidence := 0.7 }

/-- Executor state after executing the probe decision at time 0. -/
def rollbackProbe_ex1 : ActionExecutorState :=
  (execute_action {} rollbackProbe_decision {} 0).2

/-- Executor state after the first rollback at time 1. -/
def rollbackProbe_ex2 : ActionExecutorState :=
  (rollback_action rollbackProbe_ex1 "a1" "first reason" 1).2

/-- C1 evaluated at the failing input: `rollback_action` looks the action up
by key membership only and never removes the entry, so the first call on
`"a1"` returns `status="success"` with `state_restored=true` — but the
second call on the same id is not a no-op or not-found-equivalent result:
it returns `status="success"` again, re-reports `state_restored=true`, and
overwrites the rollback metadata (`rollback_reason` changes from
`"first reason"` to `"second reason"`, `rolled_back_at` from time 1 to
time 2), contradicting the claimed idempotence. Only the terminal status
itself stays `"rolled_back"`, and only an id absent from the registry gets
the `"Action not found"` error. -/
theorem rollback_second_call_overwrites :
    (rollback_action rollbackProbe_ex1 "a1" "first reason" 1).1.status =
        "success" ∧
      (rollback_action rollbackProbe_ex1 "a1" "first reason"
        1).1.rollback_details =
        some { simulated := true, state_restored := true } ∧
      (rollbackProbe_ex2.active_actions.lookup "a1").map
        ActionState.status = some "rolled_back" ∧
      (rollbackProbe_ex2.active_actions.lookup "a1").map
        ActionState.rollback_reason = some (some "first reason") ∧
      (rollbackProbe_ex2.active_actions.lookup "a1").map
        ActionState.rolled_back_at = some (some 1) ∧
      (rollback_action rollbackProbe_ex2 "a1" "second reason" 2).1.status =
        "success" ∧
      (rollback_action rollbackProbe_ex2 "a1" "second reason"
        2).1.rollback_details =
        some { simulated := true, state_restored := true } ∧
      ((rollback_action rollbackProbe_ex2 "a1" "second reason"
          2).2.active_actions.lookup "a1").map ActionState.status =
        some "rolled_back" ∧
      ((rollback_action rollbackProbe_ex2 "a1" "second reason"
          2).2.active_actions.lookup "a1").map ActionState.rollback_reason =
        some (some "second reason") ∧
      ((rollback_action rollbackProbe_ex2 "a1" "second reason"
          2).2.active_actions.lookup "a1").map ActionState.rolled_back_at =
        some (some 2) ∧
      (rollback_action {} "a1" "any reason" 0).1 =
        { status := "error", message := some "Action not found" } := by
  refine ⟨?_, ?_, ?_, ?_, ?_, ?_, ?_, ?_, ?_, ?_, ?_⟩ <;>
    simp [rollback_action, rollbackProbe_ex2, rollbackProbe_ex1,
      rollbackProbe_decision, execute_action, execute_handler,
      execute_with_handler_outcome, executor_register_active_action,
      capture_state_snapshot, updateAction, List.lookup]

end PaymentAgent
